import Mathlib

/-!
Verification of the fy compiler core: a shallow embedding of the lexer
(src/src/utils.cpp), the typed AST and its lowering (src/unnamed/part_001),
and the value/cast engine (src/unnamed/part_002), together with theorems
settling the frozen claims about them.

The repository's `types.cpp` and `lexer.h` (and the `values.cpp` revision that
part_001 compiles against) are not under src/; the few definitions taken from
them are modelled from the spec and marked as such in their doc comments.
-/

/-- Modelled from the spec: the tagged type variant of `types.cpp`, which is not
in src (spec §3 "Type"): `Number(bits, is_floating, is_signed)`, `Pointer`,
`Tuple` (ordered element types), `Array(elem, count)`, `Struct`,
`Function(return_type, params, vararg)` and `Null`. -/
inductive Ty where
  | number (bits : Nat) (is_floating : Bool) (is_signed : Bool)
  | pointer (points_to : Ty)
  | tuple (types : List Ty)
  | array (elem : Ty) (count : Nat)
  | structT (sname : String) (fields : List (String × Ty))
  | function (return_type : Ty) (args : List Ty) (vararg : Bool)
  | null

/-- The `TypeType` tag enum used by `type_type()` dispatch in the AST. -/
inductive TypeType where
  | Number | Pointer | Tuple | Array | Struct | Function | Null
deriving DecidableEq

def Ty.type_type : Ty → TypeType
  | .number _ _ _ => .Number
  | .pointer _ => .Pointer
  | .tuple _ => .Tuple
  | .array _ _ => .Array
  | .structT _ _ => .Struct
  | .function _ _ _ => .Function
  | .null => .Null

mutual
/-- Modelled from the spec: structural type equality `Type::eq` from the missing
`types.cpp` (spec §3/§4.2): deep structural equality; `Struct` equality ignores
the struct's name; two numeric types are unequal if any of (bits, is_floating,
is_signed) differ. -/
def tyEq : Ty → Ty → Bool
  | .number b f s, .number b' f' s' => b == b' && f == f' && s == s'
  | .pointer p, .pointer p' => tyEq p p'
  | .tuple ts, .tuple ts' => tysEq ts ts'
  | .array e n, .array e' n' => tyEq e e' && n == n'
  | .structT _ fs, .structT _ fs' => fieldsEq fs fs'
  | .function r as v, .function r' as' v' => tyEq r r' && tysEq as as' && v == v'
  | .null, .null => true
  | _, _ => false
/-- Structural equality on ordered type lists (tuple elements, function params). -/
def tysEq : List Ty → List Ty → Bool
  | [], [] => true
  | t :: ts, t' :: ts' => tyEq t t' && tysEq ts ts'
  | _, _ => false
/-- Structural equality on struct field lists (field names and field types). -/
def fieldsEq : List (String × Ty) → List (String × Ty) → Bool
  | [], [] => true
  | (n, t) :: fs, (n', t') :: fs' => n == n' && tyEq t t' && fieldsEq fs fs'
  | _, _ => false
end

/-- `Type::neq`, used by the AST constructors and the cast engine. -/
def tyNeq (a b : Ty) : Bool := !(tyEq a b)

mutual
theorem tyEq_refl : (t : Ty) → tyEq t t = true
  | .number b f s => by simp [tyEq]
  | .pointer p => by simp [tyEq, tyEq_refl p]
  | .tuple ts => by simp [tyEq, tysEq_refl ts]
  | .array e n => by simp [tyEq, tyEq_refl e]
  | .structT n fs => by simp [tyEq, fieldsEq_refl fs]
  | .function r as v => by simp [tyEq, tyEq_refl r, tysEq_refl as]
  | .null => by simp [tyEq]
theorem tysEq_refl : (ts : List Ty) → tysEq ts ts = true
  | [] => by simp [tysEq]
  | t :: ts => by simp [tysEq, tyEq_refl t, tysEq_refl ts]
theorem fieldsEq_refl : (fs : List (String × Ty)) → fieldsEq fs fs = true
  | [] => by simp [fieldsEq]
  | (n, t) :: fs => by simp [fieldsEq, tyEq_refl t, fieldsEq_refl fs]
end

/-- `NumType(bits, is_floating, is_signed)` as passed around by the lowering
helpers (`gen_num_num_binop` takes `NumType*` operand descriptions). -/
structure NumType where
  bits : Nat
  is_floating : Bool
  is_signed : Bool

def NumType.toTy (n : NumType) : Ty := .number n.bits n.is_floating n.is_signed

/-- `dynamic_cast<NumType *>` on a type. -/
def Ty.asNum : Ty → Option NumType
  | .number b f s => some ⟨b, f, s⟩
  | _ => none

/-- `dynamic_cast<PointerType *>` on a type: the pointee when it is a pointer. -/
def Ty.asPtr : Ty → Option Ty
  | .pointer p => some p
  | _ => none

def Ty.is_floating : Ty → Bool
  | .number _ f _ => f
  | _ => false

/-- `float_64_type` (the LLVM double type) as a fy type. -/
def float64Ty : Ty := .number 64 true true

/-! ## Lexer (src/src/utils.cpp)

The character source is a `List Char`; its head plays the role of the C++
one-character lookahead `last_char`, and the empty list is end of input (EOF).
-/

/-- C `isdigit`. -/
def isdigit (c : Char) : Bool := '0' ≤ c && c ≤ '9'

/-- C `isxdigit`: a decimal digit or a letter digit `a`-`f` / `A`-`F`. -/
def isxdigit (c : Char) : Bool :=
  isdigit c || ('a' ≤ c && c ≤ 'f') || ('A' ≤ c && c ≤ 'F')

/-- C `isspace`. -/
def isspace (c : Char) : Bool :=
  c == ' ' || c == '\t' || c == '\n' || c == '\x0b' || c == '\x0c' || c == '\r'

/-- utils.cpp line 74: `c <= '9' ? c - '0' : c <= 'F' ? c - 'A' : c - 'a'`
(plain character arithmetic, as in the source). -/
def xtoi (c : Char) : Int :=
  if c ≤ '9' then (c.toNat : Int) - ('0'.toNat : Int)
  else if c ≤ 'F' then (c.toNat : Int) - ('A'.toNat : Int)
  else (c.toNat : Int) - ('a'.toNat : Int)

/-- utils.cpp `get_escape` (lines 77-104): maps an escape character to the byte
value it denotes, consuming further source characters only in the `\x` case,
where it reads exactly two characters and fails fatally unless both are hex
digits. The produced byte is `(xtoi(first) << 4) + xtoi(second)`. Reading past
the end of input yields EOF, which is not a hex digit, hence the same error. -/
def get_escape (escape_char : Char) (s : List Char) : Except String (Int × List Char) :=
  match escape_char with
  | 'n' => .ok (10, s)
  | 'r' => .ok (13, s)
  | 't' => .ok (9, s)
  | '\'' => .ok (39, s)
  | '"' => .ok (34, s)
  | '\\' => .ok (92, s)
  | '0' => .ok (0, s)
  | 'x' =>
    match s with
    | first :: second :: rest =>
      if !(isxdigit first) || !(isxdigit second) then
        .error "Expected two hex digits after \\x"
      else
        .ok (xtoi first * 16 + xtoi second, rest)
    | _ => .error "Expected two hex digits after \\x"
  | _ => .error "Invalid escape"

/-- The digit-acceptance test of the `num_while` loop in `next_token`
(utils.cpp lines 138-141): hex digits for base 16; digits or a dot for
base 10; `0`-`7` for base 8; `0`-`1` for base 2. -/
def digit_ok (base : Nat) (c : Char) : Bool :=
  if base == 16 then isxdigit c
  else if base == 10 then isdigit c || c == '.'
  else if base == 8 then '0' ≤ c && c ≤ '7'
  else '0' ≤ c && c ≤ '1'

/-- The `num_while` loop of `next_token` (utils.cpp lines 136-151): consume
characters while they are valid digits for the base; a second `.` terminates
the literal; the first `.` sets the has-dot flag and is kept in the digit text.
Returns (digit text so far, has-dot flag, remaining source). -/
def num_while (base : Nat) (hasDot : Bool) (acc : List Char) : List Char → List Char × Bool × List Char
  | [] => (acc, hasDot, [])
  | c :: cs =>
    if digit_ok base c then
      if c == '.' && hasDot then (acc, hasDot, c :: cs)
      else num_while base (hasDot || c == '.') (acc ++ [c]) cs
    else (acc, hasDot, c :: cs)

/-- The suffix step of the number branch (utils.cpp lines 153-164): consume a
single suffix character from `{d,l,f,i,u,b}` as the `num_type`; otherwise leave
the source alone and default the `num_type` to `d` if the literal had a dot,
else `i`. Returns (num_type, remaining source). -/
def num_suffix (hasDot : Bool) : List Char → Char × List Char
  | c :: cs =>
    if c == 'd' || c == 'l' || c == 'f' || c == 'i' || c == 'u' || c == 'b'
    then (c, cs)
    else ((if hasDot then 'd' else 'i'), c :: cs)
  | [] => ((if hasDot then 'd' else 'i'), [])

/-- The payload of a `T_NUMBER` token: the globals `num_value`, `num_base`,
`num_has_dot`, `num_type` filled in by `next_token`. -/
structure NumTok where
  num_value : List Char
  num_base : Nat
  num_has_dot : Bool
  num_type : Char
deriving DecidableEq

/-- The number branch of `next_token` (utils.cpp lines 117-165), given the
first digit `c0` (the current `last_char`) and the rest of the source. The
first character is appended to the digit text before the base prefix is
examined, so `0x1F` has digit text `01F`. -/
def read_number (c0 : Char) (rest : List Char) : NumTok × List Char :=
  let startedWithZero := c0 == '0'
  let (base, rest1) :=
    if startedWithZero then
      match rest with
      | 'x' :: rs => (16, rs)
      | 'b' :: rs => (2, rs)
      | 'o' :: rs => (8, rs)
      | _ => (10, rest)
    else (10, rest)
  let (digits, hasDot, rest2) := num_while base false [c0] rest1
  let (ntype, rest3) := num_suffix hasDot rest2
  (⟨digits, base, hasDot, ntype⟩, rest3)

/-- A token as returned by `next_token`. Only the branches the claims exercise
are embedded in full: whitespace skipping, end of input, and the number branch
(which contains no `error` call in the source). A leading character that
starts any other branch (identifier, string, char, operator, comment) is
returned as an opaque `other` token so that the embedding stays total. -/
inductive Token where
  | T_EOF
  | T_NUMBER (payload : NumTok)
  | other (c : Char)
deriving DecidableEq

/-- `next_token` (utils.cpp line 107): skip whitespace, return `T_EOF` at end
of input, lex a number when the lookahead is a digit. -/
def next_token : List Char → Token × List Char
  | [] => (.T_EOF, [])
  | c :: cs =>
    if isspace c then next_token cs
    else if isdigit c then
      let (tok, rest) := read_number c cs
      (.T_NUMBER tok, rest)
    else (.other c, cs)

/-- Repeatedly call `next_token` until `T_EOF`, collecting the tokens (the
fuel bounds the number of tokens; it is irrelevant as long as it exceeds the
token count). -/
def tokenize : Nat → List Char → List Token
  | 0, _ => []
  | fuel + 1, s =>
    match next_token s with
    | (.T_EOF, _) => []
    | (tok, rest) => tok :: tokenize fuel rest

/-! ## Symbolic IR

Lowering is modelled against a symbolic SSA IR: emitted instructions are
recorded, tagged with the basic block the builder was positioned in, and each
value-producing instruction yields a fresh `ssa` id. Basic blocks are numbered
in order of creation.
-/

/-- A symbolic LLVM value (`LLVMValueRef`). `castTo v src dst` stands for the
result of the `cast(value, from, to)` helper of the missing `values.cpp`
revision (modelled from the spec §4.6): `v`, of type `src`, coerced to `dst`. -/
inductive IRVal where
  | constIntStr (ty : Ty) (s : List Char) (base : Nat)
  | constRealStr (ty : Ty) (s : List Char)
  | constInt (ty : Ty) (v : Nat)
  | constReal (ty : Ty) (v : Int)
  | constNull (ty : Ty)
  | constAllOnes (ty : Ty)
  | ssa (id : Nat)
  | undef (ty : Ty)
  | castTo (v : IRVal) (src dst : Ty)

/-- Binary IR opcodes used by `gen_num_num_binop`. -/
inductive BOp where
  | fadd | fsub | fmul | fdiv | frem
  | add | sub | mul | sdiv | udiv | srem | urem
  | andB | orB
deriving DecidableEq

/-- `LLVMRealPredicate` values used by the sources. -/
inductive FPred where
  | ult | ugt | ule | uge | ueq | une | one
deriving DecidableEq

/-- `LLVMIntPredicate` values used by the sources. -/
inductive IPred where
  | slt | ultP | sgt | ugtP | sle | uleP | sge | ugeP | eq | ne
deriving DecidableEq

/-- A recorded IR instruction. Value-producing instructions carry the fresh
ssa id they define. `CastK` records one of the named LLVM cast operations
(`sitofp`, `fptoui`, ...) emitted by the cast engine. -/
inductive Instr where
  | Load (res : Nat) (ty : Ty) (ptr : IRVal)
  | Store (val ptr : IRVal)
  | Alloca (res : Nat) (ty : Ty)
  | Bin (res : Nat) (op : BOp) (l r : IRVal)
  | FCmp (res : Nat) (p : FPred) (l r : IRVal)
  | ICmp (res : Nat) (p : IPred) (l r : IRVal)
  | GEP (res : Nat) (elem_ty : Ty) (base : IRVal) (idxs : List IRVal)
  | CondBr (cond : IRVal) (then_bb else_bb : Nat)
  | Br (bb : Nat)
  | Phi (res : Nat) (ty : Ty) (incoming : List (Nat × IRVal))
  | CallI (res : Nat) (fty : Ty) (f : IRVal) (args : List IRVal)
  | BitCast (res : Nat) (v : IRVal) (tgt : Ty)
  | CastK (res : Nat) (kind : String) (v : IRVal) (tgt : Ty)
  | ExtractValue (res : Nat) (agg : IRVal) (idx : Nat)
  | InsertValue (res : Nat) (agg v : IRVal) (idx : Nat)

/-- The IR builder (`curr_builder`): fresh value ids, fresh block names, the
current insertion block, and the instructions emitted so far in order. -/
structure Builder where
  next_id : Nat
  next_bb : Nat
  curr_bb : Nat
  instrs : List (Nat × Instr)

/-! ## Value abstraction for part_001

part_001 compiles against a `values.cpp` revision that is not in src; its
`Value` classes are modelled from the spec (§4.3, §3 "Value") and from the
constructor calls appearing in part_001 itself: `ConstValue(type, val, ptr)`
(an immediate, optionally carrying the address its data lives at),
`BasicLoadValue(ptr, type)` (a loaded value), `PHIValue(then_bb, then_v,
else_bb, else_v)` (the lazy φ produced by if/while), and the lazy `CastValue`
produced by `cast_to`. -/
inductive Val where
  | ConstValue (ty : Ty) (val : IRVal) (ptr : Option IRVal)
  | BasicLoadValue (ptr : IRVal) (ty : Ty)
  | PHIValue (then_bb : Nat) (then_v : Val) (else_bb : Nat) (else_v : Val)
  | CastValue (source : Val) (tgt : Ty)

/-- `Value::get_type`. A φ carries its then-value's type (the two arms were
checked equal at construction); a cast reports its target type. -/
def Val.get_type : Val → Ty
  | .ConstValue ty _ _ => ty
  | .BasicLoadValue _ ty => ty
  | .PHIValue _ tv _ _ => tv.get_type
  | .CastValue _ tgt => tgt

/-- `Value::has_ptr`: whether the value is backed by a memory address. -/
def Val.has_ptr : Val → Bool
  | .ConstValue _ _ p => p.isSome
  | .BasicLoadValue _ _ => true
  | .PHIValue _ _ _ _ => false
  | .CastValue _ _ => false

/-- The compilation state threaded through emission: `curr_named_variables`
and the IR builder. -/
structure GenState where
  vars : List (String × Val)
  builder : Builder

/-- The emission monad: state plus fatal errors (`error(...)` + `exit(1)` in
the source is modelled as an `Except.error`). -/
def Gen (α : Type) := GenState → Except String (α × GenState)

def gpure {α : Type} (a : α) : Gen α := fun s => .ok (a, s)

def gbind {α β : Type} (m : Gen α) (f : α → Gen β) : Gen β := fun s =>
  match m s with
  | .ok (a, s') => f a s'
  | .error e => .error e

/-- A fatal diagnostic (`error(...)`) aborting compilation. -/
def gthrow {α : Type} (msg : String) : Gen α := fun _ => .error msg

instance : Monad Gen := { pure := gpure, bind := gbind }

/-- Allocate a fresh ssa id. -/
def fresh_id : Gen Nat := fun s =>
  .ok (s.builder.next_id,
    { s with builder := { s.builder with next_id := s.builder.next_id + 1 } })

/-- Create a fresh basic block (`LLVMAppendBasicBlock` / `LLVMCreateBasicBlock`). -/
def fresh_bb : Gen Nat := fun s =>
  .ok (s.builder.next_bb,
    { s with builder := { s.builder with next_bb := s.builder.next_bb + 1 } })

/-- `LLVMPositionBuilderAtEnd`. -/
def set_bb (bb : Nat) : Gen Unit := fun s =>
  .ok ((), { s with builder := { s.builder with curr_bb := bb } })

/-- `LLVMGetInsertBlock`. -/
def get_bb : Gen Nat := fun s => .ok (s.builder.curr_bb, s)

/-- Record an instruction at the current insertion block. -/
def emit (i : Instr) : Gen Unit := fun s =>
  .ok ((), { s with builder :=
    { s.builder with instrs := s.builder.instrs ++ [(s.builder.curr_bb, i)] } })

/-- Write into `curr_named_variables`. -/
def set_var (name : String) (v : Val) : Gen Unit := fun s =>
  .ok ((), { s with vars := (name, v) :: s.vars })

/-- Read `curr_named_variables[name]` (a missing binding is a null `Value*`
in the source, which would crash on use; modelled as a fatal error). -/
def get_var (name : String) : Gen Val := fun s =>
  match s.vars.lookup name with
  | some v => .ok (v, s)
  | none => .error "null Value in curr_named_variables"

/-- `PointerType::get_points_to` (falls back to `Null` on a non-pointer; the
source would dereference a null `dynamic_cast` result there). -/
def Ty.get_points_to : Ty → Ty
  | .pointer p => p
  | _ => .null

/-- `Value::gen_ptr` for the part_001 value classes: loaded values return
their backing pointer, immediates without a backing address fail fatally, and
a lazy cast always fails (see `CastValue` in part_002, whose behaviour the
missing revision shares). -/
def gen_ptr : Val → Gen IRVal
  | .ConstValue _ _ p =>
    match p with
    | some ptr => gpure ptr
    | none => gthrow "Const values can't be pointered"
  | .BasicLoadValue ptr _ => gpure ptr
  | .PHIValue _ _ _ _ => gthrow "Const values can't be pointered"
  | .CastValue _ _ => gthrow "Can't get the pointer to a cast"

/-- `cast_to`: wrap a value in a lazy `CastValue`; never fails at
construction. -/
def Val.cast_to (v : Val) (tgt : Ty) : Val := .CastValue v tgt

/-- Emit one `Bin` instruction and return its result. -/
def emitBin (op : BOp) (l r : IRVal) : Gen IRVal := do
  let i ← fresh_id
  emit (.Bin i op l r)
  gpure (.ssa i)

/-- Emit one `FCmp` instruction and return its result. -/
def emitFCmp (p : FPred) (l r : IRVal) : Gen IRVal := do
  let i ← fresh_id
  emit (.FCmp i p l r)
  gpure (.ssa i)

/-- Emit one `ICmp` instruction and return its result. -/
def emitICmp (p : IPred) (l r : IRVal) : Gen IRVal := do
  let i ← fresh_id
  emit (.ICmp i p l r)
  gpure (.ssa i)

/-- Emit one named cast operation and return its result. -/
def emitCastK (kind : String) (v : IRVal) (tgt : Ty) : Gen IRVal := do
  let i ← fresh_id
  emit (.CastK i kind v tgt)
  gpure (.ssa i)

/-- Modelled from the spec (§4.6 `Number(a) → Number(b)` and
`Number → Pointer`): the numeric cast rules of the cast engine used by the
part_001 revision, mirroring `gen_num_cast` of part_002. `v` has numeric type
`a`; cast it to `b`. -/
def num_cast_rules (v : IRVal) (a : NumType) (b : Ty) : Gen IRVal :=
  match b with
  | .number tb tf _ =>
    if tb == 1 then
      if a.is_floating then emitFCmp .une v (.constNull a.toTy)
      else emitICmp .ne v (.constNull a.toTy)
    else if !tf && a.is_floating then
      emitCastK (if a.is_signed then "fptosi" else "fptoui") v b
    else if tf && !a.is_floating then
      emitCastK (if a.is_signed then "sitofp" else "uitofp") v b
    else if a.is_floating then emitCastK "fpcast" v b
    else emitCastK "intcast" v b
  | .pointer _ => emitCastK "inttoptr" v b
  | _ => gthrow "number can't be casted to this type"

/-- The insertvalue/extractvalue loop of the tuple-to-array cast (spec §4.6):
move `count` elements from tuple value `tup_v` into aggregate `arr_v`,
starting at index `i`. -/
def tuple_cast_loop (tup_v : IRVal) : IRVal → Nat → Nat → Gen IRVal
  | arr_v, _, 0 => gpure arr_v
  | arr_v, i, k + 1 => do
    let e ← fresh_id
    emit (.ExtractValue e tup_v i)
    let a ← fresh_id
    emit (.InsertValue a arr_v (.ssa e) i)
    tuple_cast_loop tup_v (.ssa a) (i + 1) k

mutual
/-- `Value::gen_load` for the part_001 value classes (modelled from the spec,
§4.3): an immediate returns its IR value, a loaded value emits a load at the
current insertion point, a φ value emits its incoming loads in their
predecessor blocks and then the φ (mirroring `gen_phi` of part_002, including
its arm-type equality check), and a lazy cast materializes via the cast
engine. The fuel only bounds recursion depth. -/
def gen_load : Nat → Val → Gen IRVal
  | 0, _ => gthrow "recursion fuel exhausted"
  | fuel + 1, v =>
    match v with
    | .ConstValue _ val _ => gpure val
    | .BasicLoadValue ptr ty => do
      let i ← fresh_id
      emit (.Load i ty ptr)
      gpure (.ssa i)
    | .PHIValue a_bb a_v b_bb b_v =>
      if tyNeq a_v.get_type b_v.get_type then
        gthrow "conditional's values must have the same type"
      else do
        let curr ← get_bb
        set_bb a_bb
        let a_val ← gen_load fuel a_v
        set_bb b_bb
        let b_val ← gen_load fuel b_v
        set_bb curr
        let i ← fresh_id
        emit (.Phi i a_v.get_type [(a_bb, a_val), (b_bb, b_val)])
        gpure (.ssa i)
    | .CastValue source tgt => materialize_cast fuel source tgt

/-- Modelled from the spec: the cast engine of the `values.cpp` revision
part_001 compiles against is not in src; these are the rules of spec §4.6,
mirroring the structure of `cast` in part_002. Materializing `CastValue
source tgt` loads/addresses the source as each rule requires and emits the
coercion at the current insertion point; an inadmissible pair is fatal. -/
def materialize_cast : Nat → Val → Ty → Gen IRVal
  | 0, _, _ => gthrow "recursion fuel exhausted"
  | fuel + 1, source, tgt =>
    let src := source.get_type
    if tyEq src tgt then do
      let v ← gen_load fuel source
      let i ← fresh_id
      emit (.BitCast i v tgt)
      gpure (.ssa i)
    else
      match src with
      | .number b f sg => do
        let v ← gen_load fuel source
        num_cast_rules v ⟨b, f, sg⟩ tgt
      | .pointer _ =>
        match tgt with
        | .pointer _ => do
          let v ← gen_load fuel source
          emitCastK "ptrcast" v tgt
        | .number _ _ _ => do
          let v ← gen_load fuel source
          emitCastK "ptrtoint" v tgt
        | _ => gthrow "pointer can't be casted to this type"
      | .array elem count =>
        match tgt with
        | .pointer points_to =>
          if tyNeq points_to elem then
            gthrow "Array can't be casted to pointer with different type"
          else if !source.has_ptr then
            gthrow "const arrays can't be automatically casted to a pointer to their elements."
          else do
            let p ← gen_ptr source
            let g ← fresh_id
            emit (.GEP g (.array elem count) p
              [.constInt (.number 64 false false) 0, .constInt (.number 64 false false) 0])
            gpure (.ssa g)
        | _ => gthrow "array can't be casted to this type"
      | .tuple ts =>
        match tgt with
        | .array elem count =>
          if !(tysEq ts (List.replicate ts.length elem)) then
            gthrow "Tuple can't be casted to array with different type"
          else if count ≠ ts.length then
            gthrow "Tuple can't be casted to array with different size"
          else if source.has_ptr then do
            let p ← gen_ptr source
            let i ← fresh_id
            emit (.BitCast i p tgt)
            let l ← fresh_id
            emit (.Load l tgt (.ssa i))
            gpure (.ssa l)
          else do
            let tup_v ← gen_load fuel source
            tuple_cast_loop tup_v (.undef tgt) 0 ts.length
        | _ => gthrow "tuple can't be casted to this type"
      | .null => gpure (.constNull tgt)
      | _ => gthrow "Invalid cast"
end

/-! ## AST (src/unnamed/part_001)

Binary operators are `int`s in the source: single-character operators are
their ASCII codes, multi-character operators are named token kinds from the
missing `lexer.h`, modelled here as distinct negative codes (their concrete
values are immaterial; only their identity is used). -/

def T_EQEQ : Int := -300
def T_LEQ : Int := -301
def T_GEQ : Int := -302
def T_NEQ : Int := -303
def T_LAND : Int := -304
def T_LOR : Int := -305

/-- Modelled from the spec: the parser's `binop_precedence` table is not in
src. The `BinaryExprAST` constructor only tests whether the operator's
precedence is 10 ("comparison"); per spec §4.4, the comparisons are
`< > <= >= == !=`, so exactly those get precedence 10 here. -/
def binop_precedence (op : Int) : Nat :=
  if op == 60 || op == 62 || op == T_EQEQ || op == T_LEQ || op == T_GEQ || op == T_NEQ
  then 10 else 20

/-- `num_char_to_type` (part_001 lines 23-49): maps a number-literal type
suffix and has-dot flag to a numeric type; the integer suffixes reject a
dotted literal fatally. -/
def num_char_to_type (type_char : Char) (has_dot : Bool) : Except String NumType :=
  match type_char with
  | 'd' => .ok ⟨64, true, true⟩
  | 'f' => .ok ⟨32, true, true⟩
  | 'i' =>
    if has_dot then .error "'i' (int32) type can't have a '.'"
    else .ok ⟨32, false, true⟩
  | 'u' =>
    if has_dot then .error "'u' (uint32) type can't have a '.'"
    else .ok ⟨32, false, false⟩
  | 'l' =>
    if has_dot then .error "'l' (long, int64) type can't have a '.'"
    else .ok ⟨64, false, true⟩
  | 'b' =>
    if has_dot then .error "'b' (byte, uint8) type can't have a '.'"
    else .ok ⟨8, false, false⟩
  | _ => .error "Invalid number type id"

/-- `FunctionType(return_type, arguments, arg_count, vararg)` as stored by a
`CallExprAST`. -/
structure FunctionTypeS where
  return_type : Ty
  arguments : List Ty
  arg_count : Nat
  vararg : Bool

/-- The expression AST of part_001. Each constructor carries exactly the
fields its C++ class stores; in particular the `ty` field is the `type`
member cached by the class constructor (`get_type()` returns it). The node
kinds the claims are about are embedded: `Number`/`Bool`/`Cast`/`Variable`/
`Let`/`Binary`/`Unary`/`Call`/`Index`/`Block`/`Null`/`If`/`While`
(`NumberExprAST`, `BoolExprAST`, ... in the source). -/
inductive Expr where
  | Number (val : List Char) (base : Nat) (ty : Ty)
  | BoolE (value : Bool)
  | CastE (value : Expr) (tgt : Ty)
  | Variable (name : String) (ty : Ty)
  | LetE (id : String) (ty : Ty) (value : Option Expr) (constant : Bool) (global : Bool)
  | Binary (op : Int) (lhs rhs : Expr) (ty : Ty)
  | Unary (op : Char) (operand : Expr) (ty : Ty)
  | CallE (called : Expr) (args : List Expr) (func_t : FunctionTypeS)
  | Index (value index : Expr) (ty : Ty)
  | Block (exprs : List Expr) (ty : Ty)
  | NullE (ty : Ty)
  | IfE (cond then_ else_ : Expr) (ty : Ty)
  | WhileE (cond then_ else_ : Expr) (ty : Ty)

/-- `ExprAST::get_type`: the type cached at construction. A `BoolExprAST`
always caches `NumType(1,false,false)`; a `CallExprAST` caches its function
type's return type. -/
def Expr.get_type : Expr → Ty
  | .Number _ _ ty => ty
  | .BoolE _ => .number 1 false false
  | .CastE _ tgt => tgt
  | .Variable _ ty => ty
  | .LetE _ ty _ _ _ => ty
  | .Binary _ _ _ ty => ty
  | .Unary _ _ ty => ty
  | .CallE _ _ func_t => func_t.return_type
  | .Index _ _ ty => ty
  | .Block _ ty => ty
  | .NullE ty => ty
  | .IfE _ _ _ ty => ty
  | .WhileE _ _ _ ty => ty

/-- `NumberExprAST::NumberExprAST` (part_001 lines 58-62): computes the cached
numeric type from the suffix character and has-dot flag. -/
def NumberExprAST_mk (val : List Char) (type_char : Char) (has_dot : Bool)
    (base : Nat) : Except String Expr :=
  match num_char_to_type type_char has_dot with
  | .ok nt => .ok (.Number val base nt.toTy)
  | .error e => .error e

/-- `BinaryExprAST::BinaryExprAST` (part_001 lines 369-392): `=` takes the
right-hand type; numeric-numeric takes bool for comparisons and otherwise the
LEFT operand's type (the source comments "todo get max size and return that
type" there); pointer-numeric takes the pointer side's type; anything else is
fatal. -/
def BinaryExprAST_mk (op : Int) (lhs rhs : Expr) : Except String Expr :=
  let lhs_t := lhs.get_type
  let rhs_t := rhs.get_type
  if op == 61 then .ok (.Binary op lhs rhs rhs_t)
  else if lhs_t.type_type == .Number && rhs_t.type_type == .Number then
    .ok (.Binary op lhs rhs
      (if binop_precedence op == 10 then .number 1 false false else lhs_t))
  else if lhs_t.type_type == .Pointer && rhs_t.type_type == .Number then
    .ok (.Binary op lhs rhs lhs_t)
  else if lhs_t.type_type == .Number && rhs_t.type_type == .Pointer then
    .ok (.Binary op lhs rhs rhs_t)
  else .error "Unknown ptr_ptr op"

/-- `LetExprAST::LetExprAST` (part_001 lines 139-150): installs the binding's
type into `curr_named_var_types`, computing it from the initializer when not
declared; declaring neither a type nor a value is fatal. No check relates a
declared type to the initializer's type. -/
def LetExprAST_mk (id : String) (type : Option Ty) (value : Option Expr)
    (constant global : Bool) (var_types : List (String × Ty)) :
    Except String (Expr × List (String × Ty)) :=
  match type with
  | some t => .ok (.LetE id t value constant global, (id, t) :: var_types)
  | none =>
    match value with
    | some v => .ok (.LetE id v.get_type value constant global, (id, v.get_type) :: var_types)
    | none => .error "Untyped valueless variable"

/-- `IfExprAST::IfExprAST` (part_001 lines 696-713), also inherited by
`WhileExprAST`: the result type is the then arm's type; a missing else arm is
replaced by a `NullExprAST` of that type; structurally unequal arm types are
fatal. `mkWhile` tags the node as a while expression. -/
def IfExprAST_mk (mkWhile : Bool) (cond then_ : Expr) (elze : Option Expr) :
    Except String Expr :=
  let then_t := then_.get_type
  let elz := match elze with
    | none => Expr.NullE then_t
    | some e => e
  if tyNeq then_t elz.get_type then
    .error "while's then and else side don't have the same type"
  else .ok (if mkWhile then .WhileE cond then_ elz then_t else .IfE cond then_ elz then_t)

/-- `gen_num_num_binop` (part_001 lines 256-342): when the operand widths
differ, the narrower operand is cast to the wider type before the operation;
the opcode is then chosen by the float/int character of both operands and, for
division, remainder and ordering, by their joint signedness. -/
def gen_num_num_binop (op : Int) (L R : IRVal) (lhs_nt rhs_nt : NumType) :
    Gen IRVal :=
  let LR : IRVal × IRVal :=
    if lhs_nt.bits > rhs_nt.bits then (L, .castTo R rhs_nt.toTy lhs_nt.toTy)
    else if rhs_nt.bits > lhs_nt.bits then (.castTo L lhs_nt.toTy rhs_nt.toTy, R)
    else (L, R)
  let L := LR.1
  let R := LR.2
  let floating := lhs_nt.is_floating && rhs_nt.is_floating
  if floating then
    if op == 43 then emitBin .fadd L R
    else if op == 45 then emitBin .fsub L R
    else if op == 42 then emitBin .fmul L R
    else if op == 47 then emitBin .fdiv L R
    else if op == 37 then emitBin .frem L R
    else if op == T_LAND || op == 38 then emitBin .andB L R
    else if op == T_LOR || op == 124 then emitBin .orB L R
    else if op == 60 then emitFCmp .ult L R
    else if op == 62 then emitFCmp .ugt L R
    else if op == T_LEQ then emitFCmp .ule L R
    else if op == T_GEQ then emitFCmp .uge L R
    else if op == T_EQEQ then emitFCmp .ueq L R
    else if op == T_NEQ then emitFCmp .une L R
    else gthrow "invalid float_float binary operator"
  else if !lhs_nt.is_floating && !rhs_nt.is_floating then
    let is_signed := lhs_nt.is_signed && rhs_nt.is_signed
    if op == 43 then emitBin .add L R
    else if op == 45 then emitBin .sub L R
    else if op == 42 then emitBin .mul L R
    else if op == 47 then emitBin (if is_signed then .sdiv else .udiv) L R
    else if op == 37 then emitBin (if is_signed then .srem else .urem) L R
    else if op == T_LAND || op == 38 then emitBin .andB L R
    else if op == T_LOR || op == 124 then emitBin .orB L R
    else if op == 60 then emitICmp (if is_signed then .slt else .ultP) L R
    else if op == 62 then emitICmp (if is_signed then .sgt else .ugtP) L R
    else if op == T_LEQ then emitICmp (if is_signed then .sle else .uleP) L R
    else if op == T_GEQ then emitICmp (if is_signed then .sge else .ugeP) L R
    else if op == T_EQEQ then emitICmp .eq L R
    else if op == T_NEQ then emitICmp .ne L R
    else gthrow "invalid int_int binary operator"
  else gthrow "invalid float_int binary operator"

/-- `gen_ptr_num_binop` (part_001 lines 343-360): `-` first negates the index
by subtracting it from an i32 zero and then falls through to the `+` case,
which emits a GEP over the pointee type; anything else is fatal. -/
def gen_ptr_num_binop (op : Int) (ptr num : IRVal) (ptr_t : Ty) (num_t : NumType) :
    Gen IRVal :=
  if op == 45 then do
    let i ← fresh_id
    emit (.Bin i .sub (.constInt (.number 32 false false) 0) num)
    let g ← fresh_id
    emit (.GEP g ptr_t.get_points_to ptr [.ssa i])
    gpure (.ssa g)
  else if op == 43 then do
    let g ← fresh_id
    emit (.GEP g ptr_t.get_points_to ptr [num])
    gpure (.ssa g)
  else gthrow "invalid ptr_num binary operator"

mutual
/-- `ExprAST::gen_value` for each embedded node kind, a faithful rendering of
the `gen_value` methods in part_001 (the fuel only bounds recursion depth):

* `NumberExprAST::gen_value` (lines 64-75): a floating literal with a
  non-decimal base is a fatal error here, during emission; otherwise an IR
  constant is parsed from the digit text.
* `VariableExprAST::gen_value` (lines 124-126): the value bound in
  `curr_named_variables`, returned unchanged.
* `LetExprAST::gen_value` (lines 164-180): a constant binds the name directly
  to the initializer's emitted value and returns it; a mutable local allocates
  a stack slot, stores the initializer cast to the declared type, and returns
  a `BasicLoadValue` over the slot.
* `BinaryExprAST::gen_value`/`gen_assign` (lines 396-424).
* `UnaryExprAST::gen_value` (lines 444-471); the source also binds an unused
  i32 zero constant there, which emits nothing.
* `CallExprAST::gen_value` (lines 507-523).
* `IndexExprAST::gen_value` (lines 550-556): the index value is loaded first,
  then the base.
* `BlockExprAST::gen_value` (lines 672-677).
* `IfExprAST::gen_value` (lines 717-752) and `WhileExprAST::gen_value`
  (lines 759-799), including the while back-edge exactly as written at lines
  778-783: the condition is re-emitted and re-loaded, but the float
  normalization `FCmp` is applied to `cond_v` — the pre-loop value — rather
  than to the just-recomputed `cond_v2`. -/
def genValue : Nat → Expr → Gen Val
  | 0, _ => gthrow "recursion fuel exhausted"
  | fuel + 1, e =>
    match e with
    | .Number val base ty =>
      if ty.is_floating then
        if base ≠ 10 then
          gthrow "floating-point numbers with a base that isn't decimal aren't supported."
        else gpure (.ConstValue ty (.constRealStr ty val) none)
      else gpure (.ConstValue ty (.constIntStr ty val base) none)
    | .BoolE value =>
      gpure (.ConstValue (.number 1 false false)
        (if value then .constAllOnes (.number 1 false false)
         else .constNull (.number 1 false false)) none)
    | .CastE value tgt => do
      let v ← genValue fuel value
      gpure (v.cast_to tgt)
    | .Variable name _ => get_var name
    | .LetE id ty value constant _ =>
      if constant then
        match value with
        | some v => do
          let val ← genValue fuel v
          set_var id val
          gpure val
        | none => gthrow "Constant variables need an initialization value"
      else do
        let p ← fresh_id
        emit (.Alloca p ty)
        set_var id (.BasicLoadValue (.ssa p) ty)
        match value with
        | some v => do
          let vv ← genValue fuel v
          let llvm_val ← gen_load fuel (vv.cast_to ty)
          emit (.Store llvm_val (.ssa p))
          gpure (.BasicLoadValue (.ssa p) ty)
        | none => gpure (.BasicLoadValue (.ssa p) ty)
    | .Binary op lhs rhs ty =>
      if op == 61 then gen_assign fuel lhs rhs ty
      else do
        let lhs_t := lhs.get_type
        let rhs_t := rhs.get_type
        let lv ← genValue fuel lhs
        let L ← gen_load fuel lv
        let rv ← genValue fuel rhs
        let R ← gen_load fuel rv
        match lhs_t.asNum, rhs_t.asNum with
        | some lhs_nt, some rhs_nt => do
          let r ← gen_num_num_binop op L R lhs_nt rhs_nt
          gpure (.ConstValue ty r none)
        | some lhs_nt, none =>
          match rhs_t.asPtr with
          | some _ => do
            let r ← gen_ptr_num_binop op R L rhs_t lhs_nt
            gpure (.ConstValue ty r none)
          | none => gthrow "Unknown ptr_ptr op"
        | none, some rhs_nt =>
          match lhs_t.asPtr with
          | some _ => do
            let r ← gen_ptr_num_binop op L R lhs_t rhs_nt
            gpure (.ConstValue ty r none)
          | none => gthrow "Unknown ptr_ptr op"
        | none, none => gthrow "Unknown ptr_ptr op"
    | .Unary op operand ty => do
      let val ← genValue fuel operand
      if op == '!' then do
        let l ← gen_load fuel val
        let i ← fresh_id
        emit (.FCmp i .one l (.constReal float64Ty 1))
        gpure (.ConstValue ty (.ssa i) none)
      else if op == '-' then do
        let l ← gen_load fuel val
        let i ← fresh_id
        emit (.Bin i .fsub (.constReal float64Ty 0) l)
        gpure (.ConstValue ty (.ssa i) none)
      else if op == '*' then do
        let l ← gen_load fuel val
        gpure (.BasicLoadValue l ty)
      else if op == '&' then do
        let p ← gen_ptr val
        gpure (.ConstValue ty p none)
      else gthrow "invalid prefix unary operator"
    | .CallE called args func_t => do
      let cv ← genValue fuel called
      let func ← gen_load fuel cv
      let arg_vs ← genArgs fuel args 0 func_t
      let i ← fresh_id
      emit (.CallI i (.function func_t.return_type func_t.arguments func_t.vararg)
        func arg_vs)
      gpure (.ConstValue func_t.return_type (.ssa i) none)
    | .Index value index ty => do
      let iv ← genValue fuel index
      let index_v ← gen_load fuel iv
      let vv ← genValue fuel value
      let base ← gen_load fuel vv
      let g ← fresh_id
      emit (.GEP g ty base [index_v])
      gpure (.BasicLoadValue (.ssa g) ty)
    | .Block exprs _ => genBlockList fuel exprs
    | .NullE ty => gpure (.ConstValue ty (.constNull ty) none)
    | .IfE cond then_ else_ _ => do
      let cv ← genValue fuel cond
      let cond_v0 ← gen_load fuel cv
      let cond_v ←
        if cond.get_type.is_floating then do
          let i ← fresh_id
          emit (.FCmp i .one cond_v0 (.constReal float64Ty 0))
          gpure (IRVal.ssa i)
        else gpure cond_v0
      let then_bb ← fresh_bb
      let else_bb ← fresh_bb
      let merge_bb ← fresh_bb
      emit (.CondBr cond_v then_bb else_bb)
      set_bb then_bb
      let then_v ← genValue fuel then_
      emit (.Br merge_bb)
      let then_bb2 ← get_bb
      set_bb else_bb
      let else_v ← genValue fuel else_
      emit (.Br merge_bb)
      let else_bb2 ← get_bb
      set_bb merge_bb
      gpure (.PHIValue then_bb2 then_v else_bb2 else_v)
    | .WhileE cond then_ else_ _ => do
      let cv ← genValue fuel cond
      let cond_v0 ← gen_load fuel cv
      let cond_v ←
        if cond.get_type.is_floating then do
          let i ← fresh_id
          emit (.FCmp i .one cond_v0 (.constReal float64Ty 0))
          gpure (IRVal.ssa i)
        else gpure cond_v0
      let then_bb ← fresh_bb
      let else_bb ← fresh_bb
      let merge_bb ← fresh_bb
      emit (.CondBr cond_v then_bb else_bb)
      set_bb then_bb
      let then_v ← genValue fuel then_
      let cv2 ← genValue fuel cond
      let cond_v2a ← gen_load fuel cv2
      let cond_v2 ←
        if cond.get_type.is_floating then do
          let i ← fresh_id
          emit (.FCmp i .one cond_v (.constReal float64Ty 0))
          gpure (IRVal.ssa i)
        else gpure cond_v2a
      emit (.CondBr cond_v2 then_bb merge_bb)
      let then_bb2 ← get_bb
      set_bb else_bb
      let else_v ← genValue fuel else_
      emit (.Br merge_bb)
      let else_bb2 ← get_bb
      set_bb merge_bb
      gpure (.PHIValue then_bb2 then_v else_bb2 else_v)

/-- `BinaryExprAST::gen_assign` (part_001 lines 396-401): fetch the left side's
address, wrap the right side's value in a cast to the left side's type,
load (materializing the cast) and store; the result is a `BasicLoadValue`
over the store address carrying the node's cached type. -/
def gen_assign : Nat → Expr → Expr → Ty → Gen Val
  | 0, _, _, _ => gthrow "recursion fuel exhausted"
  | fuel + 1, lhs, rhs, ty => do
    let lv ← genValue fuel lhs
    let store_ptr ← gen_ptr lv
    let rv ← genValue fuel rhs
    let val := rv.cast_to lhs.get_type
    let loaded ← gen_load fuel val
    emit (.Store loaded store_ptr)
    gpure (.BasicLoadValue store_ptr ty)

/-- The argument loop of `CallExprAST::gen_value` (part_001 lines 512-518):
arguments within the fixed arity are cast to the declared parameter type
before being loaded; vararg extras are loaded as they are. -/
def genArgs : Nat → List Expr → Nat → FunctionTypeS → Gen (List IRVal)
  | 0, _, _, _ => gthrow "recursion fuel exhausted"
  | _ + 1, [], _, _ => gpure []
  | fuel + 1, a :: rest, i, func_t => do
    let av ← genValue fuel a
    let v ←
      if i < func_t.arg_count then
        gen_load fuel (av.cast_to (func_t.arguments.getD i .null))
      else gen_load fuel av
    let vs ← genArgs fuel rest (i + 1) func_t
    gpure (v :: vs)

/-- The body loop of `BlockExprAST::gen_value` (part_001 lines 672-677):
emit every expression, discarding all values but the last. -/
def genBlockList : Nat → List Expr → Gen Val
  | 0, _ => gthrow "recursion fuel exhausted"
  | _ + 1, [] => gthrow "block can't be empty."
  | fuel + 1, [e] => genValue fuel e
  | fuel + 1, e :: rest => do
    let _ ← genValue fuel e
    genBlockList fuel rest
end

/-! ## Values and the cast engine (src/unnamed/part_002)

part_002 is a `values.cpp` revision with its own `Value` classes; it is
embedded here under the `values` namespace, faithful to that file. The
`NumType(false)` index type used for the GEP zeros (its one-argument
constructor lives in the missing `types.cpp`) is modelled from the spec as an
unsigned 64-bit integer type. -/

namespace values

/-- The `Value` class hierarchy of part_002 (lines 6-75 and 199-228), one
constructor per class, each carrying exactly the fields its class stores.
The `to` field of `CastValue` is spelled `tgt` (`to` is reserved in Lean). -/
inductive Value where
  | ConstValue (type : Ty) (val : IRVal)
  | ConstValueWithPtr (type : Ty) (ptr val : IRVal)
  | IntValue (type : NumType) (val : Nat)
  | FuncValue (type : Ty) (func : IRVal)
  | BasicLoadValue (type : Ty) (var : IRVal)
  | CastValue (source : Value) (tgt : Ty)
  | NamedValue (val : Value) (vname : String)

/-- `Value::get_type` per class: a `CastValue` reports its target type, a
`NamedValue` delegates to the wrapped value. -/
def Value.get_type : Value → Ty
  | .ConstValue t _ => t
  | .ConstValueWithPtr t _ _ => t
  | .IntValue t _ => t.toTy
  | .FuncValue t _ => t
  | .BasicLoadValue t _ => t
  | .CastValue _ tgt => tgt
  | .NamedValue v _ => v.get_type

/-- `Value::has_ptr` per class: false for `ConstValue`, `IntValue` and
`CastValue`; true for the pointer-backed classes; delegated by `NamedValue`. -/
def Value.has_ptr : Value → Bool
  | .ConstValue _ _ => false
  | .ConstValueWithPtr _ _ _ => true
  | .IntValue _ _ => false
  | .FuncValue _ _ => true
  | .BasicLoadValue _ _ => true
  | .CastValue _ _ => false
  | .NamedValue v _ => v.has_ptr

/-- `Value::gen_ptr` per class. It emits no instructions (the `NamedValue`
case additionally renames the IR value in the source), so it is a plain
fallible function of the value. -/
def Value.gen_ptr : Value → Except String IRVal
  | .ConstValue _ _ => .error "Const values can't be pointered"
  | .ConstValueWithPtr _ p _ => .ok p
  | .IntValue _ _ => .error "Int values can't be pointered"
  | .FuncValue _ f => .ok f
  | .BasicLoadValue _ v => .ok v
  | .CastValue _ _ => .error "Can't get the pointer to a cast"
  | .NamedValue v _ => v.gen_ptr

/-- `gen_num_cast` (part_002 lines 97-122): value `value` of numeric type `a`
cast to `b`; an i1 target compares against the typed zero, otherwise the
float/int characters and the SOURCE signedness choose the cast opcode;
a non-numeric, non-pointer target is fatal. -/
def gen_num_cast (value : IRVal) (a : NumType) (b : Ty) : Gen IRVal :=
  match b with
  | .number nb nf _ =>
    if nb == 1 then
      if a.is_floating then emitFCmp .une value (.constNull a.toTy)
      else emitICmp .ne value (.constNull a.toTy)
    else if !nf && a.is_floating then
      emitCastK (if a.is_signed then "fptosi" else "fptoui") value b
    else if nf && !a.is_floating then
      emitCastK (if a.is_signed then "sitofp" else "uitofp") value b
    else if a.is_floating then emitCastK "fpcast" value b
    else emitCastK (if a.is_signed then "intcast.signed" else "intcast.unsigned") value b
  | _ =>
    if b.type_type == .Pointer then emitCastK "inttoptr" value b
    else gthrow "number can't be casted to this type"

/-- `gen_ptr_cast` (part_002 lines 124-130): pointer bitcast to a pointer
target, ptr-to-int to a numeric target, fatal otherwise. -/
def gen_ptr_cast (value : IRVal) (b : Ty) : Gen IRVal :=
  if b.type_type == .Pointer then emitCastK "ptrcast" value b
  else if b.type_type == .Number then emitCastK "ptrtoint" value b
  else gthrow "pointer can't be casted to this type"

/-- `gen_arr_cast` (part_002 lines 132-150): an `Array(elem, count)` value
cast to `b`. Only a pointer target whose pointee equals `elem` is allowed, and
only when the value has a backing address; then a GEP with two zero indices
into that address is emitted. A mismatched pointee or an addressless array is
fatal, as is a non-pointer target. -/
def gen_arr_cast (value : Value) (a_elem : Ty) (a_count : Nat) (b : Ty) : Gen IRVal :=
  match b with
  | .pointer points_to =>
    if tyNeq points_to a_elem then
      gthrow "Array can't be casted to pointer with different type"
    else if !value.has_ptr then
      gthrow "const arrays can't be automatically casted to a pointer to their elements."
    else
      match value.gen_ptr with
      | .error e => gthrow e
      | .ok p => do
        let g ← fresh_id
        emit (.GEP g (.array a_elem a_count) p
          [.constInt (.number 64 false false) 0, .constInt (.number 64 false false) 0])
        gpure (.ssa g)
  | _ => gthrow "array can't be casted to this type"

mutual
/-- `Value::gen_val` per class (part_002): immediates return their IR value,
`BasicLoadValue` emits a load, `CastValue` materializes via `cast`, and
`NamedValue` delegates (the source additionally renames the IR value). The
fuel only bounds recursion depth. -/
def gen_val : Nat → Value → Gen IRVal
  | 0, _ => gthrow "recursion fuel exhausted"
  | fuel + 1, v =>
    match v with
    | .ConstValue _ val => gpure val
    | .ConstValueWithPtr _ _ val => gpure val
    | .IntValue t val => gpure (.constInt t.toTy val)
    | .FuncValue _ f => gpure f
    | .BasicLoadValue t var => do
      let i ← fresh_id
      emit (.Load i t var)
      gpure (.ssa i)
    | .CastValue source tgt => cast fuel source tgt
    | .NamedValue val _ => gen_val fuel val

/-- `gen_tuple_cast` (part_002 lines 152-179): a `Tuple(a_types)` value cast
to `b`. Only an array target is allowed; every member type must equal the
array element type and the counts must match; a value with an address is
bitcast and loaded as the array, otherwise the array is built by an
extractvalue/insertvalue loop over the tuple's elements. -/
def gen_tuple_cast : Nat → Value → List Ty → Ty → Gen IRVal
  | 0, _, _, _ => gthrow "recursion fuel exhausted"
  | fuel + 1, value, a_types, b =>
    match b with
    | .array elem count =>
      if !(a_types.all fun member => !(tyNeq member elem)) then
        gthrow "Tuple can't be casted to array with different type"
      else if count ≠ a_types.length then
        gthrow "Tuple can't be casted to array with different size"
      else if value.has_ptr then
        match value.gen_ptr with
        | .error e => gthrow e
        | .ok p => do
          let i ← fresh_id
          emit (.BitCast i p (.array elem count))
          let l ← fresh_id
          emit (.Load l (.array elem count) (.ssa i))
          gpure (.ssa l)
      else do
        let tup_v ← gen_val fuel value
        tuple_cast_loop tup_v (.undef (.array elem count)) 0 a_types.length
    | _ => gthrow "tuple can't be casted to this type"

/-- `cast` (part_002 lines 181-197): equal types bitcast; otherwise dispatch
on the source's type class; a `Null` source yields a typed null constant of
the target; any other pair is fatal. -/
def cast : Nat → Value → Ty → Gen IRVal
  | 0, _, _ => gthrow "recursion fuel exhausted"
  | fuel + 1, source, tgt =>
    let src := source.get_type
    if tyEq src tgt then do
      let v ← gen_val fuel source
      let i ← fresh_id
      emit (.BitCast i v tgt)
      gpure (.ssa i)
    else
      match src with
      | .number b f s => do
        let v ← gen_val fuel source
        gen_num_cast v ⟨b, f, s⟩ tgt
      | .pointer _ => do
        let v ← gen_val fuel source
        gen_ptr_cast v tgt
      | .array elem count => gen_arr_cast source elem count tgt
      | .tuple ts => gen_tuple_cast fuel source ts tgt
      | .null => gpure (.constNull tgt)
      | _ => gthrow "Invalid cast"
end

/-- `Value::cast_to` (part_002 line 209): wrap in a lazy `CastValue`; never
fails at construction. -/
def Value.cast_to (v : Value) (tgt : Ty) : Value := .CastValue v tgt

end values

/-! ## Theorems -/

theorem gen_bind_def {α β : Type} (m : Gen α) (f : α → Gen β) :
    m >>= f = gbind m f := rfl

theorem gen_pure_def {α : Type} (a : α) : (pure a : Gen α) = gpure a := rfl

/-- C5: the `\xHH` escape consumes exactly the two characters after `\x` and
errors fatally when either is not a hex digit, as the claim states — but the
byte it produces is NOT the two-digit hexadecimal number when a letter digit
is involved: `xtoi` maps `a`-`f`/`A`-`F` to 0-5 instead of 10-15 (the `+ 10`
is missing), so `\xff` yields byte 85 instead of 255 and `\x1F` yields 21
instead of 31. Digit-only escapes such as `\x12` are computed correctly. -/
theorem c5_escape_hex_byte :
    get_escape 'x' ['f', 'f'] = .ok (85, []) ∧ (85 : Int) ≠ 255 ∧
    get_escape 'x' ['1', 'F'] = .ok (21, []) ∧ (21 : Int) ≠ 31 ∧
    get_escape 'x' ['1', '2', '3'] = .ok (18, ['3']) ∧
    get_escape 'x' ['z', '1'] = .error "Expected two hex digits after \\x" ∧
    get_escape 'x' ['1'] = .error "Expected two hex digits after \\x" :=
  ⟨rfl, by decide, rfl, by decide, rfl, rfl, rfl⟩

/-- C7 counterexample: the claim's expected payload for `0x1F` is digit text
`1F`, but `next_token` pushes the leading `0` into the digit text before it
examines the base prefix, so the `NUMBER` token's payload is `01F`. -/
theorem c7_hex_payload_keeps_leading_zero :
    (read_number '0' ['x', '1', 'F']).1 =
      ⟨['0', '1', 'F'], 16, false, 'i'⟩ ∧
    (['0', '1', 'F'] : List Char) ≠ ['1', 'F'] :=
  ⟨rfl, by decide⟩

/-- C7 (amended): after the digit run the lexer consumes at most one suffix
character from `{d,f,i,u,l,b}` and records it as `num_type`, defaulting to
`d`/`i` by the has-dot flag when no suffix follows; and the scenario input
produces the seven expected `NUMBER` payloads — with digit text `01F` (the
leading zero of the hex prefix is kept), not `1F`, for the first token. -/
theorem c7_suffix_rule_and_scenario :
    (∀ (hasDot : Bool) (s : List Char),
      (∃ c cs, s = c :: cs ∧
        (c = 'd' ∨ c = 'l' ∨ c = 'f' ∨ c = 'i' ∨ c = 'u' ∨ c = 'b') ∧
        num_suffix hasDot s = (c, cs)) ∨
      num_suffix hasDot s = ((if hasDot then 'd' else 'i'), s)) ∧
    tokenize 8 "0x1F 42 3.14 7u 8b 9l 2.5f".toList =
      [.T_NUMBER ⟨['0', '1', 'F'], 16, false, 'i'⟩,
       .T_NUMBER ⟨['4', '2'], 10, false, 'i'⟩,
       .T_NUMBER ⟨['3', '.', '1', '4'], 10, true, 'd'⟩,
       .T_NUMBER ⟨['7'], 10, false, 'u'⟩,
       .T_NUMBER ⟨['8'], 10, false, 'b'⟩,
       .T_NUMBER ⟨['9'], 10, false, 'l'⟩,
       .T_NUMBER ⟨['2', '.', '5'], 10, true, 'f'⟩] := by
  constructor
  · intro hasDot s
    cases s with
    | nil => right; rfl
    | cons c cs =>
      by_cases h : (c == 'd' || c == 'l' || c == 'f' || c == 'i' || c == 'u' || c == 'b') = true
      · left
        refine ⟨c, cs, rfl, ?_, ?_⟩
        · have h2 := h; simp only [Bool.or_eq_true, beq_iff_eq] at h2; tauto
        · simp [num_suffix, h]
      · right
        simp only [num_suffix, h]
        simp
  · rfl

/-- C6 counterexample: the lexer does NOT reject a floating literal with a
non-decimal base. Tokenizing `0b1d` runs to completion and returns a complete
`NUMBER` token (digit text `01`, base 2, floating suffix `d`); the number
branch of `next_token` contains no error call at all. -/
theorem c6_lexer_accepts_nondecimal_float :
    next_token "0b1d".toList = (.T_NUMBER ⟨['0', '1'], 2, false, 'd'⟩, []) := rfl

/-- C6 (amended): a floating-point literal with base 2, 8 or 16 is reported
as a fatal error during IR emission, by `NumberExprAST::gen_value`, not by
the lexer during tokenization: the token for `0b1d` constructs an AST node
of floating type `F64` without error, and emitting that node is the step that
fails with the diagnostic. -/
theorem c6_nondecimal_float_fails_at_emission :
    NumberExprAST_mk ['0', '1'] 'd' false 2 =
      .ok (.Number ['0', '1'] 2 (.number 64 true true)) ∧
    genValue 1 (.Number ['0', '1'] 2 (.number 64 true true)) ⟨[], ⟨0, 1, 0, []⟩⟩ =
      .error "floating-point numbers with a base that isn't decimal aren't supported." ∧
    (∀ (fuel : Nat) (val : List Char) (base : Nat) (bits : Nat) (sg : Bool)
      (st : GenState), base ≠ 10 →
      genValue (fuel + 1) (.Number val base (.number bits true sg)) st =
        .error "floating-point numbers with a base that isn't decimal aren't supported.") := by
  refine ⟨rfl, rfl, ?_⟩
  intro fuel val base bits sg st hbase
  simp [genValue, Ty.is_floating, hbase, gthrow, gpure]

/-- C6 witness: the general emission-failure conjunct applied at the token of
`0b1d` with base 2. -/
theorem c6_witness :
    genValue 1 (.Number ['0', '1'] 2 (.number 64 true true)) ⟨[], ⟨0, 1, 0, []⟩⟩ =
      .error "floating-point numbers with a base that isn't decimal aren't supported." :=
  c6_nondecimal_float_fails_at_emission.2.2 0 ['0', '1'] 2 64 true ⟨[], ⟨0, 1, 0, []⟩⟩
    (by decide)

/-- C1: for `a + b` with `a : i32` and `b : i64`, `BinaryExprAST` construction
succeeds, and `gen_num_num_binop` does widen the narrower operand (`a`) to the
wider type i64 before emitting the add — but the node's cached `result_type`
is the LEFT operand's type `Number(32,false,true)`, not the wider
`Number(64,false,true)` the claim states (the source marks the spot with
"todo get max size and return that type"). -/
theorem c1_binop_result_type_and_widening :
    BinaryExprAST_mk 43 (.Variable "a" (.number 32 false true))
        (.Variable "b" (.number 64 false true)) =
      .ok (.Binary 43 (.Variable "a" (.number 32 false true))
        (.Variable "b" (.number 64 false true)) (.number 32 false true)) ∧
    Ty.number 32 false true ≠ Ty.number 64 false true ∧
    gen_num_num_binop 43 (.ssa 1) (.ssa 2) ⟨32, false, true⟩ ⟨64, false, true⟩
        ⟨[], ⟨3, 1, 0, []⟩⟩ =
      .ok (.ssa 3, ⟨[], ⟨4, 1, 0,
        [(0, .Bin 3 .add
          (.castTo (.ssa 1) (.number 32 false true) (.number 64 false true))
          (.ssa 2))]⟩⟩) :=
  ⟨rfl, by simp, rfl⟩

/-- C3: for a numeric operand `n : i32`, unary `-` does not subtract from the
zero of `n`'s own type: it emits `FSub(ConstReal(F64, 0.0), n)`, an F64 zero
and a float subtraction regardless of the operand type; and unary `!` does not
compare against zero: it emits `FCmp ONE (n, ConstReal(F64, 1.0))`, a
comparison against the F64 constant 1.0. (The returned values do carry the
operand's type, as the claim says.) -/
theorem c3_unary_lowering_uses_f64_constants :
    genValue 2 (.Unary '-' (.Variable "n" (.number 32 false true)) (.number 32 false true))
        ⟨[("n", .BasicLoadValue (.ssa 0) (.number 32 false true))], ⟨1, 1, 0, []⟩⟩ =
      .ok (.ConstValue (.number 32 false true) (.ssa 2) none,
        ⟨[("n", .BasicLoadValue (.ssa 0) (.number 32 false true))],
         ⟨3, 1, 0, [(0, .Load 1 (.number 32 false true) (.ssa 0)),
                    (0, .Bin 2 .fsub (.constReal float64Ty 0) (.ssa 1))]⟩⟩) ∧
    genValue 2 (.Unary '!' (.Variable "n" (.number 32 false true)) (.number 32 false true))
        ⟨[("n", .BasicLoadValue (.ssa 0) (.number 32 false true))], ⟨1, 1, 0, []⟩⟩ =
      .ok (.ConstValue (.number 32 false true) (.ssa 2) none,
        ⟨[("n", .BasicLoadValue (.ssa 0) (.number 32 false true))],
         ⟨3, 1, 0, [(0, .Load 1 (.number 32 false true) (.ssa 0)),
                    (0, .FCmp 2 .one (.ssa 1) (.constReal float64Ty 1))]⟩⟩) ∧
    float64Ty ≠ Ty.number 32 false true :=
  ⟨rfl, rfl, by simp [float64Ty]⟩



set_option maxHeartbeats 1000000 in
/-- C2: the branch at the tail of a while body goes back to the body block
when true and to the merge block when false, and the condition IS re-emitted
there — but for a floating condition the float-against-zero normalization is
applied to `cond_v`, the PRE-LOOP value (here `ssa 2`), not to the freshly
recomputed load (`ssa 3`), which is left dead: see the second `FCmp` in the
float trace below. For a non-floating condition the back-edge does branch on
the freshly loaded value, as the claim states. -/
theorem c2_while_backedge_condition :
    genValue 3 (.WhileE (.Variable "c" float64Ty) (.NullE float64Ty)
        (.NullE float64Ty) float64Ty)
        ⟨[("c", .BasicLoadValue (.ssa 0) float64Ty)], ⟨1, 1, 0, []⟩⟩ =
      .ok (.PHIValue 1 (.ConstValue float64Ty (.constNull float64Ty) none)
             2 (.ConstValue float64Ty (.constNull float64Ty) none),
        ⟨[("c", .BasicLoadValue (.ssa 0) float64Ty)],
         ⟨5, 4, 3,
          [(0, .Load 1 float64Ty (.ssa 0)),
           (0, .FCmp 2 .one (.ssa 1) (.constReal float64Ty 0)),
           (0, .CondBr (.ssa 2) 1 2),
           (1, .Load 3 float64Ty (.ssa 0)),
           (1, .FCmp 4 .one (.ssa 2) (.constReal float64Ty 0)),
           (1, .CondBr (.ssa 4) 1 3),
           (2, .Br 3)]⟩⟩) ∧
    IRVal.ssa 2 ≠ IRVal.ssa 3 ∧
    genValue 3 (.WhileE (.Variable "c" (.number 1 false false))
        (.NullE (.number 1 false false)) (.NullE (.number 1 false false))
        (.number 1 false false))
        ⟨[("c", .BasicLoadValue (.ssa 0) (.number 1 false false))], ⟨1, 1, 0, []⟩⟩ =
      .ok (.PHIValue 1 (.ConstValue (.number 1 false false)
              (.constNull (.number 1 false false)) none)
             2 (.ConstValue (.number 1 false false)
              (.constNull (.number 1 false false)) none),
        ⟨[("c", .BasicLoadValue (.ssa 0) (.number 1 false false))],
         ⟨3, 4, 3,
          [(0, .Load 1 (.number 1 false false) (.ssa 0)),
           (0, .CondBr (.ssa 1) 1 2),
           (1, .Load 2 (.number 1 false false) (.ssa 0)),
           (1, .CondBr (.ssa 2) 1 3),
           (2, .Br 3)]⟩⟩) := by
  refine ⟨?_, by simp, ?_⟩ <;>
    simp [genValue, gen_bind_def, gen_pure_def, gbind, gpure, gthrow, get_var,
      gen_load, fresh_id, fresh_bb, set_bb, get_bb, emit, Ty.is_floating,
      Expr.get_type, float64Ty]

/-- C8: an if expression constructed without an else arm gets a null
expression carrying the then arm's type as its else arm (and such construction
always succeeds, the two arms then being of equal type); and with an explicit
else arm, construction succeeds exactly when the two arms' types are
structurally equal, failing with the fatal diagnostic otherwise. -/
theorem c8_if_ctor_default_else_and_type_check :
    (∀ (cond then_ : Expr), IfExprAST_mk false cond then_ none =
      .ok (.IfE cond then_ (.NullE then_.get_type) then_.get_type)) ∧
    (∀ (cond then_ elz : Expr), IfExprAST_mk false cond then_ (some elz) =
      if tyEq then_.get_type elz.get_type
      then .ok (.IfE cond then_ elz then_.get_type)
      else .error "while's then and else side don't have the same type") := by
  constructor
  · intro cond then_
    simp [IfExprAST_mk, tyNeq, Expr.get_type, tyEq_refl]
  · intro cond then_ elz
    by_cases h : tyEq then_.get_type elz.get_type = true
    · simp [IfExprAST_mk, tyNeq, h]
    · have h2 : tyEq then_.get_type elz.get_type = false := by
        revert h; cases tyEq then_.get_type elz.get_type <;> simp
      simp [IfExprAST_mk, tyNeq, h2]

/-- The node kinds named by claim C4: binary (including assignment, which is
a binary node with op `=`), unary, call, and index expressions. -/
def isC4Kind : Expr → Bool
  | .Binary _ _ _ _ => true
  | .Unary _ _ _ => true
  | .CallE _ _ _ => true
  | .Index _ _ _ => true
  | _ => false

theorem gen_assign_result_type (fuel : Nat) (lhs rhs : Expr) (ty : Ty)
    (st st' : GenState) (v : Val)
    (h : gen_assign fuel lhs rhs ty st = .ok (v, st')) : v.get_type = ty := by
  match fuel with
  | 0 => simp [gen_assign, gthrow] at h
  | fuel + 1 =>
    simp only [gen_assign, gen_bind_def, gen_pure_def, gbind, gpure, gthrow] at h
    repeat split at h
    all_goals try exact Except.noConfusion h
    all_goals
      rw [Except.ok.injEq, Prod.mk.injEq] at h
      obtain ⟨h1, h2⟩ := h
      subst h1
      rfl

set_option maxHeartbeats 1000000 in
/-- C4 (amended): for every successfully emitted binary (including assignment),
unary, call, or index node, the `Value` returned by `gen_value` carries a type
structurally equal to the node's cached `result_type` — every return statement
of those `gen_value` methods wraps the node's cached type (or, for calls, the
function type's return type, which is the cached type). The claim's universal
quantification over ALL node kinds fails, however: see the counterexample,
a constant `let` whose declared type differs from its initializer's. -/
theorem c4_emitted_type_matches_for_named_kinds (fuel : Nat) (e : Expr)
    (st st' : GenState) (v : Val) (hk : isC4Kind e = true)
    (h : genValue fuel e st = .ok (v, st')) :
    tyEq v.get_type e.get_type = true := by
  match fuel with
  | 0 => simp [genValue, gthrow] at h
  | fuel + 1 =>
    match e with
    | .Number _ _ _ => exact Bool.noConfusion hk
    | .BoolE _ => exact Bool.noConfusion hk
    | .CastE _ _ => exact Bool.noConfusion hk
    | .Variable _ _ => exact Bool.noConfusion hk
    | .LetE _ _ _ _ _ => exact Bool.noConfusion hk
    | .Block _ _ => exact Bool.noConfusion hk
    | .NullE _ => exact Bool.noConfusion hk
    | .IfE _ _ _ _ => exact Bool.noConfusion hk
    | .WhileE _ _ _ _ => exact Bool.noConfusion hk
    | .Binary op lhs rhs ty =>
      simp only [genValue] at h
      split at h
      · rw [gen_assign_result_type fuel lhs rhs ty st st' v h]
        exact tyEq_refl _
      · all_goals repeat' first
          | exact Except.noConfusion h
          | split at h
          | simp only [gen_bind_def, gen_pure_def, gbind, gpure, gthrow] at h
        all_goals first
          | exact Except.noConfusion h
          | (rw [Except.ok.injEq, Prod.mk.injEq] at h
             obtain ⟨h1, h2⟩ := h
             subst h1
             exact tyEq_refl _)
    | .Unary op operand ty =>
      simp only [genValue] at h
      all_goals repeat' first
        | exact Except.noConfusion h
        | split at h
        | simp only [gen_bind_def, gen_pure_def, gbind, gpure, gthrow] at h
      all_goals first
        | exact Except.noConfusion h
        | (rw [Except.ok.injEq, Prod.mk.injEq] at h
           obtain ⟨h1, h2⟩ := h
           subst h1
           exact tyEq_refl _)
    | .CallE called args func_t =>
      simp only [genValue] at h
      all_goals repeat' first
        | exact Except.noConfusion h
        | split at h
        | simp only [gen_bind_def, gen_pure_def, gbind, gpure, gthrow] at h
      all_goals first
        | exact Except.noConfusion h
        | (rw [Except.ok.injEq, Prod.mk.injEq] at h
           obtain ⟨h1, h2⟩ := h
           subst h1
           exact tyEq_refl _)
    | .Index value index ty =>
      simp only [genValue] at h
      all_goals repeat' first
        | exact Except.noConfusion h
        | split at h
        | simp only [gen_bind_def, gen_pure_def, gbind, gpure, gthrow] at h
      all_goals first
        | exact Except.noConfusion h
        | (rw [Except.ok.injEq, Prod.mk.injEq] at h
           obtain ⟨h1, h2⟩ := h
           subst h1
           exact tyEq_refl _)

/-- C4 counterexample: the invariant does not hold for EVERY node. A constant
`let x: i64 = 3` (declared type `Number(64,false,true)`, initializer of type
`Number(32,false,true)`) constructs successfully — the constructor never
compares the declared type with the initializer's — and its `gen_value`
returns the initializer's value unchanged, whose type is `Number(32,false,true)`,
not the node's cached `result_type` `Number(64,false,true)`. -/
theorem c4_constant_let_type_mismatch :
    LetExprAST_mk "x" (some (.number 64 false true))
        (some (.Number ['3'] 10 (.number 32 false true))) true false [] =
      .ok (.LetE "x" (.number 64 false true)
        (some (.Number ['3'] 10 (.number 32 false true))) true false,
        [("x", .number 64 false true)]) ∧
    NumberExprAST_mk ['3'] 'i' false 10 =
      .ok (.Number ['3'] 10 (.number 32 false true)) ∧
    genValue 2 (.LetE "x" (.number 64 false true)
        (some (.Number ['3'] 10 (.number 32 false true))) true false)
        ⟨[], ⟨0, 1, 0, []⟩⟩ =
      .ok (.ConstValue (.number 32 false true)
          (.constIntStr (.number 32 false true) ['3'] 10) none,
        ⟨[("x", .ConstValue (.number 32 false true)
            (.constIntStr (.number 32 false true) ['3'] 10) none)],
         ⟨0, 1, 0, []⟩⟩) ∧
    Val.get_type (.ConstValue (.number 32 false true)
        (.constIntStr (.number 32 false true) ['3'] 10) none) =
      .number 32 false true ∧
    Expr.get_type (.LetE "x" (.number 64 false true)
        (some (.Number ['3'] 10 (.number 32 false true))) true false) =
      .number 64 false true ∧
    tyEq (.number 32 false true) (.number 64 false true) = false ∧
    Ty.number 32 false true ≠ Ty.number 64 false true :=
  ⟨rfl, rfl, rfl, rfl, rfl, by simp [tyEq], by simp⟩

/-- C4 witness: the amended theorem applied to the unary node `-n` with
`n : i32`, whose emission succeeds with a value of the node's own type. -/
theorem c4_witness :
    tyEq (Val.get_type (.ConstValue (.number 32 false true) (.ssa 2) none))
      (Expr.get_type (.Unary '-' (.Variable "n" (.number 32 false true))
        (.number 32 false true))) = true :=
  c4_emitted_type_matches_for_named_kinds 2
    (.Unary '-' (.Variable "n" (.number 32 false true)) (.number 32 false true))
    ⟨[("n", .BasicLoadValue (.ssa 0) (.number 32 false true))], ⟨1, 1, 0, []⟩⟩
    ⟨[("n", .BasicLoadValue (.ssa 0) (.number 32 false true))],
     ⟨3, 1, 0, [(0, .Load 1 (.number 32 false true) (.ssa 0)),
                (0, .Bin 2 .fsub (.constReal float64Ty 0) (.ssa 1))]⟩⟩
    (.ConstValue (.number 32 false true) (.ssa 2) none) rfl rfl

theorem values.gen_ptr_ok_of_has_ptr :
    ∀ (v : values.Value), v.has_ptr = true → ∃ p, v.gen_ptr = .ok p := by
  intro v
  induction v with
  | ConstValue t val => intro h; exact Bool.noConfusion h
  | ConstValueWithPtr t p val => intro _; exact ⟨p, rfl⟩
  | IntValue t val => intro h; exact Bool.noConfusion h
  | FuncValue t f => intro _; exact ⟨f, rfl⟩
  | BasicLoadValue t var => intro _; exact ⟨var, rfl⟩
  | CastValue source tgt ih => intro h; exact Bool.noConfusion h
  | NamedValue val vname ih => intro h; exact ih h

theorem values.has_ptr_of_gen_ptr :
    ∀ (v : values.Value) (p : IRVal), v.gen_ptr = .ok p → v.has_ptr = true := by
  intro v
  induction v with
  | ConstValue t val => intro p h; exact Except.noConfusion h
  | ConstValueWithPtr t ptr val => intro _ _; rfl
  | IntValue t val => intro p h; exact Except.noConfusion h
  | FuncValue t f => intro _ _; rfl
  | BasicLoadValue t var => intro _ _; rfl
  | CastValue source tgt ih => intro p h; exact Except.noConfusion h
  | NamedValue val vname ih => intro p h; exact ih p h

/-- C9: materializing a cast from `Array(elem, count)` to `Pointer(u)`
succeeds if and only if `u` equals `elem` (structurally) and the array value
has a backing address; a mismatched element type or an addressless array is a
fatal error (with the two diagnostics shown); and on success the emitted
instruction is a GEP with two zero indices into the array's address, whose
result is returned. The element count plays no role. -/
theorem c9_arr_cast_gep_zero_zero (v : values.Value) (elem : Ty) (count : Nat)
    (u : Ty) (st : GenState) :
    ((∃ r st', values.gen_arr_cast v elem count (.pointer u) st = .ok (r, st')) ↔
      tyEq u elem = true ∧ v.has_ptr = true) ∧
    (tyEq u elem = false →
      values.gen_arr_cast v elem count (.pointer u) st =
        .error "Array can't be casted to pointer with different type") ∧
    (tyEq u elem = true → v.has_ptr = false →
      values.gen_arr_cast v elem count (.pointer u) st =
        .error "const arrays can't be automatically casted to a pointer to their elements.") ∧
    (∀ p, v.gen_ptr = .ok p → tyEq u elem = true →
      values.gen_arr_cast v elem count (.pointer u) st =
        .ok (.ssa st.builder.next_id,
          ⟨st.vars, ⟨st.builder.next_id + 1, st.builder.next_bb, st.builder.curr_bb,
            st.builder.instrs ++ [(st.builder.curr_bb,
              .GEP st.builder.next_id (.array elem count) p
                [.constInt (.number 64 false false) 0,
                 .constInt (.number 64 false false) 0])]⟩⟩)) := by
  have main : ∀ p, v.gen_ptr = .ok p → tyEq u elem = true →
      values.gen_arr_cast v elem count (.pointer u) st =
        .ok (.ssa st.builder.next_id,
          ⟨st.vars, ⟨st.builder.next_id + 1, st.builder.next_bb, st.builder.curr_bb,
            st.builder.instrs ++ [(st.builder.curr_bb,
              .GEP st.builder.next_id (.array elem count) p
                [.constInt (.number 64 false false) 0,
                 .constInt (.number 64 false false) 0])]⟩⟩) := by
    intro p hgp hty
    have hp := values.has_ptr_of_gen_ptr v p hgp
    simp [values.gen_arr_cast, tyNeq, hty, hp, hgp, gen_bind_def, gen_pure_def,
      gbind, gpure, gthrow, fresh_id, emit]
  refine ⟨⟨?_, ?_⟩, ?_, ?_, main⟩
  · rintro ⟨r, st', h⟩
    cases hty : tyEq u elem with
    | false => simp [values.gen_arr_cast, tyNeq, hty, gthrow] at h
    | true =>
      cases hp : v.has_ptr with
      | false => simp [values.gen_arr_cast, tyNeq, hty, hp, gthrow] at h
      | true => exact ⟨rfl, rfl⟩
  · rintro ⟨hty, hp⟩
    obtain ⟨p, hgp⟩ := values.gen_ptr_ok_of_has_ptr v hp
    exact ⟨_, _, main p hgp hty⟩
  · intro hty
    simp [values.gen_arr_cast, tyNeq, hty, gthrow]
  · intro hty hp
    simp [values.gen_arr_cast, tyNeq, hty, hp, gthrow]

/-- C9 witness: an i8 array of length 4 backed by an address, cast to a
pointer to i8: the GEP with two zero indices is emitted. -/
theorem c9_witness :
    values.gen_arr_cast
        (values.Value.BasicLoadValue (.array (.number 8 false false) 4) (.ssa 0))
        (.number 8 false false) 4 (.pointer (.number 8 false false))
        ⟨[], ⟨1, 1, 0, []⟩⟩ =
      .ok (.ssa 1, ⟨[], ⟨2, 1, 0,
        [(0, .GEP 1 (.array (.number 8 false false) 4) (.ssa 0)
          [.constInt (.number 64 false false) 0,
           .constInt (.number 64 false false) 0])]⟩⟩) :=
  (c9_arr_cast_gep_zero_zero
      (values.Value.BasicLoadValue (.array (.number 8 false false) 4) (.ssa 0))
      (.number 8 false false) 4 (.number 8 false false)
      ⟨[], ⟨1, 1, 0, []⟩⟩).2.2.2 (.ssa 0) rfl (by simp [tyEq])

/-- C10: `cast_to` always succeeds, returning a `CastValue` wrapping the
source; the wrapper reports the target type; it has no address — `has_ptr`
is false and `gen_ptr` fails with the diagnostic — for EVERY wrapped source,
including sources that themselves have a backing address; and loading it is
exactly the `cast` materialization, which is the only place a coercion
failure can surface. -/
theorem c10_cast_value_wrapper (v : values.Value) (t : Ty) (fuel : Nat) :
    values.Value.cast_to v t = values.Value.CastValue v t ∧
    (values.Value.CastValue v t).get_type = t ∧
    (values.Value.CastValue v t).has_ptr = false ∧
    (values.Value.CastValue v t).gen_ptr =
      .error "Can't get the pointer to a cast" ∧
    values.gen_val (fuel + 1) (values.Value.CastValue v t) =
      values.cast fuel v t :=
  ⟨rfl, rfl, rfl, rfl, rfl⟩
